import Mathlib

/-!
Verification of the ps-pingdom-maintenance reconciler.

The Go program keeps a Pingdom maintenance window's uptime-check-ID list in
sync with the set of checks tagged `sla`.  The definitions below are a shallow
embedding of the program: pure Go functions become Lean functions; the Pingdom
HTTP calls are parameterised by an explicit response outcome (transport error,
status code, optional decoded body); the two Prometheus gauges become an
explicit `Gauges` record threaded through the fetch functions (the gauge values
set by the program are exact small integer counts, so they are modelled as
`Int`); `log.Fatalf` in `newEnv` becomes an `Option` result.  Go `int` is
modelled as `Int` (no arithmetic in the program approaches 64-bit overflow).
-/

/-- The inner `checks` object of a maintenance schedule (uptime and tms ID
lists), from the `MaintenanceSchedule` struct. -/
structure MaintenanceChecks where
  Uptime : List Int
  Tms : List Int
deriving Repr, DecidableEq

/-- The `MaintenanceSchedule` struct: one Pingdom maintenance window. -/
structure MaintenanceSchedule where
  ID : Int
  Description : String
  From : Int
  To : Int
  Duration : Int
  Durationunit : String
  Recurrencetype : String
  Repeatevery : Int
  Dayofweekinmonth : Int
  Effectiveto : Int
  Checks : MaintenanceChecks
deriving Repr, DecidableEq

/-- The `PingdomMaintenanceSchedule` wrapper struct (`{"maintenance": ...}`). -/
structure PingdomMaintenanceSchedule where
  Maintenance : MaintenanceSchedule
deriving Repr, DecidableEq

/-- The `MaintenanceScheduleUpdate` struct: the restricted field subset
serialized for a PUT update.  It has exactly these eight fields. -/
structure MaintenanceScheduleUpdate where
  Description : String
  From : Int
  To : Int
  Recurrencetype : String
  Repeatevery : Int
  Effectiveto : Int
  Uptimeids : String
  Tmsids : String
deriving Repr, DecidableEq

/-- One element of the `checks` array of `PingdomChecks`.  The Go field `Type`
is rendered `TypeStr` because `Type` is reserved in Lean. -/
structure Check where
  ID : Int
  Created : Int
  Name : String
  Hostname : String
  Resolution : Int
  TypeStr : String
  Ipv6 : Bool
  VerifyCertificate : Bool
  Lasterrortime : Int
  Lasttesttime : Int
  Lastresponsetime : Int
  Status : String
  Maintenanceids : List String
deriving Repr, DecidableEq

/-- The `counts` object of `PingdomChecks`. -/
structure Counts where
  Total : Int
  Limited : Int
  Filtered : Int
deriving Repr, DecidableEq

/-- The `PingdomChecks` struct: response of `GET /checks?tags=sla`. -/
structure PingdomChecks where
  Checks : List Check
  Counts : Counts
deriving Repr, DecidableEq

/-- The two Prometheus gauges `slaTotal` and `slaMaintenance`. -/
structure Gauges where
  slaTotal : Int
  slaMaintenance : Int
deriving Repr, DecidableEq

/-- Failure taxonomy of one HTTP call: transport error from `client.Do`,
non-2xx status, or JSON decode failure. -/
inductive FetchError where
  | transport
  | status (code : Int)
  | decode
deriving Repr, DecidableEq

/-- The outcome of one HTTP exchange, as seen by the program: either
`client.Do` fails, or a response arrives with a status code and a body that
either decodes to a value of the expected schema or does not. -/
inductive HTTPResult (α : Type) where
  | transportErr
  | response (statusCode : Int) (decoded : Option α)
deriving Repr

/-- `statusOK := resp.StatusCode >= 200 && resp.StatusCode < 300`. -/
def statusOK (code : Int) : Bool :=
  decide (200 ≤ code) && decide (code < 300)

/-- `getPingdomChecks`, parameterised by the HTTP outcome `r` and the gauge
state `g`.  A transport error or a non-2xx status returns the error without
touching `slaTotal`; a decode error sets `slaTotal` to 0; success sets it to
the number of checks. -/
def getPingdomChecks (r : HTTPResult PingdomChecks) (g : Gauges) :
    Gauges × Except FetchError PingdomChecks :=
  match r with
  | .transportErr => (g, .error .transport)
  | .response code body =>
    if ! (statusOK code) then
      (g, .error (.status code))
    else
      match body with
      | none => ({ g with slaTotal := 0 }, .error .decode)
      | some c => ({ g with slaTotal := (c.Checks.length : Int) }, .ok c)

/-- `getPingdomMainenanceSchedule` (name as in the source), parameterised like
`getPingdomChecks`.  A transport error sets `slaMaintenance` to 0 before
returning; a non-2xx status returns without touching the gauge; a decode error
sets it to 0; success sets it to the window's uptime-ID count. -/
def getPingdomMainenanceSchedule (r : HTTPResult PingdomMaintenanceSchedule)
    (g : Gauges) : Gauges × Except FetchError PingdomMaintenanceSchedule :=
  match r with
  | .transportErr => ({ g with slaMaintenance := 0 }, .error .transport)
  | .response code body =>
    if ! (statusOK code) then
      (g, .error (.status code))
    else
      match body with
      | none => ({ g with slaMaintenance := 0 }, .error .decode)
      | some m =>
        ({ g with slaMaintenance := (m.Maintenance.Checks.Uptime.length : Int) }, .ok m)

/-- `intSliceToString`: build the list of decimal strings by the Go append
loop, then `strings.Join` with `","`. -/
def intSliceToString (v : List Int) : String :=
  let valuesText := v.foldl (fun acc number => acc ++ [toString number]) ([] : List String)
  String.intercalate "," valuesText

/-- `time.Date(y, m, d, hh, mm, ss, 0, time.UTC).Unix()` with the calendar
date `(y, m, d)` abstracted as a count of days since the Unix epoch (Go
normalises a day-of-month overflow such as `t.Day()+1` to the next calendar
day, i.e. to `day + 1` under this abstraction). -/
def timeDateUTCUnix (day hh mm ss : Int) : Int :=
  day * 86400 + hh * 3600 + mm * 60 + ss

/-- The `MaintenanceScheduleUpdate` payload built by
`updatePingdomMaintenanceSchedule`: `From`/`To` are recomputed from the
current date `today` (days since epoch of `time.Now()`), every other field is
copied from the fetched window, with the two ID lists comma-joined. -/
def updateSchedulePayload (today : Int) (m : PingdomMaintenanceSchedule) :
    MaintenanceScheduleUpdate :=
  { Description := m.Maintenance.Description
    From := timeDateUTCUnix today 15 0 0
    To := timeDateUTCUnix (today + 1) 6 0 0
    Recurrencetype := m.Maintenance.Recurrencetype
    Repeatevery := m.Maintenance.Repeatevery
    Effectiveto := m.Maintenance.Effectiveto
    Uptimeids := intSliceToString m.Maintenance.Checks.Uptime
    Tmsids := intSliceToString m.Maintenance.Checks.Tms }

/-- A JSON scalar as it appears in the marshalled update payload. -/
inductive Jval where
  | str (s : String)
  | int (n : Int)
deriving Repr, DecidableEq

/-- `json.Marshal` of a `MaintenanceScheduleUpdate`: the ordered key/value
pairs of the emitted JSON object, keys per the struct's json tags. -/
def marshalMaintenanceScheduleUpdate (s : MaintenanceScheduleUpdate) :
    List (String × Jval) :=
  [("description", .str s.Description), ("from", .int s.From), ("to", .int s.To),
   ("recurrencetype", .str s.Recurrencetype), ("repeatevery", .int s.Repeatevery),
   ("effectiveto", .int s.Effectiveto), ("uptimeids", .str s.Uptimeids),
   ("tmsids", .str s.Tmsids)]

/-- `updatePingdomMaintenanceSchedule`: builds the payload from `today` and the
window, then issues the PUT whose outcome is `r`; returns the payload it sent
together with the call's result (transport error, non-2xx status error,
body-read failure modelled as a `none` body, or success). -/
def updatePingdomMaintenanceSchedule (today : Int)
    (m : PingdomMaintenanceSchedule) (r : HTTPResult Unit) :
    MaintenanceScheduleUpdate × Except FetchError Unit :=
  let schedule := updateSchedulePayload today m
  match r with
  | .transportErr => (schedule, .error .transport)
  | .response code body =>
    if ! (statusOK code) then
      (schedule, .error (.status code))
    else
      match body with
      | none => (schedule, .error .decode)
      | some _ => (schedule, .ok ())

/-- `getUptimeIds`: the Go append loop collecting `check.ID` over the checks. -/
def getUptimeIds (c : PingdomChecks) : List Int :=
  c.Checks.foldl (fun i check => i ++ [check.ID]) []

/-- `compareSlice`: false when lengths differ, else positional comparison of
the two slices. -/
def compareSlice (a b : List Int) : Bool :=
  if a.length ≠ b.length then false
  else (a.zip b).all fun p => p.1 == p.2

/-- The Go assignment `m.Maintenance.Checks.Uptime = u`. -/
def setUptime (m : PingdomMaintenanceSchedule) (u : List Int) :
    PingdomMaintenanceSchedule :=
  { m with Maintenance :=
    { m.Maintenance with Checks := { m.Maintenance.Checks with Uptime := u } } }

/-- `checkMaintenanceSchedule` from `src/unnamed/part_001`: positional
comparison; on mismatch the window's uptime list is replaced by `u`. -/
def checkMaintenanceSchedule (m : PingdomMaintenanceSchedule) (u : List Int) :
    Bool × PingdomMaintenanceSchedule :=
  if ! (compareSlice m.Maintenance.Checks.Uptime u) then (false, setUptime m u)
  else (true, m)

namespace MainV1

/-- `contains` from `src/src/main.go`: linear membership scan. -/
def contains (intSlice : List Int) (searchInt : Int) : Bool :=
  intSlice.any fun value => value == searchInt

/-- `checkMaintenanceSchedule` from `src/src/main.go`: for each desired check
missing from the (evolving) uptime list, append it and clear `upToDate`. -/
def checkMaintenanceSchedule (m : PingdomMaintenanceSchedule) (u : List Int) :
    Bool × PingdomMaintenanceSchedule :=
  let st := u.foldl
    (fun st check =>
      if ! (contains st.2 check) then (false, st.2 ++ [check]) else st)
    (true, m.Maintenance.Checks.Uptime)
  (st.1, setUptime m st.2)

end MainV1

/-- The `Env` struct of `src/unnamed/part_001`. -/
structure Env where
  apiKey : String
  maintenanceID : Int
  pollInterval : Int
  metricsPort : String
deriving Repr, DecidableEq

/-- `newEnv`: `log.Fatalf` (process termination) is modelled as `none`; the
defaults for `pollInterval` and `metricsPort` are applied after the two fatal
checks, exactly as in the source. -/
def newEnv (apiKey : String) (maintenanceID pollInterval : Int)
    (metricsPort : String) : Option Env :=
  if apiKey = "" then none
  else if maintenanceID = 0 then none
  else
    let pollInterval := if pollInterval = 0 then 300 else pollInterval
    let metricsPort := if metricsPort = "" then "9600" else metricsPort
    some { apiKey := apiKey, maintenanceID := maintenanceID,
           pollInterval := pollInterval, metricsPort := metricsPort }

/-- `strconv.Atoi` on the values relevant here: an optional sign followed by
at least one digit parses to the signed decimal value, anything else errors
(`none`).  Go's out-of-range failure is not modelled: the program's inputs are
configuration integers far below 2^63. -/
def atoi (s : String) : Option Int :=
  let (sign, digits) :=
    if s.startsWith "-" then ((-1 : Int), s.drop 1)
    else if s.startsWith "+" then ((1 : Int), s.drop 1)
    else ((1 : Int), s)
  if digits.length = 0 then none
  else if digits.toList.all (fun ch => ch.isDigit) then
    some (sign * digits.toList.foldl (fun n ch => 10 * n + ((ch.toNat : Int) - 48)) 0)
  else none

/-- `getenvInt`: the environment value (absent = `""`) through `strconv.Atoi`,
with 0 on any parse error. -/
def getenvInt (s : String) : Int :=
  match atoi s with
  | none => 0
  | some v => v

/-- The observable steps of one tick of `pollAPI`: the three HTTP operations
and the two kinds of log line the loop emits. -/
inductive TickAction where
  | fetchChecks
  | fetchWindow
  | update (payload : MaintenanceScheduleUpdate)
  | logError (op : String) (e : FetchError)
  | logUpToDate
deriving Repr, DecidableEq

/-- The HTTP outcomes a single tick of `pollAPI` can consume, in program
order: the checks fetch, the window fetch, the conditional PUT, and the
gauge-refresh refetch taken on the up-to-date path. -/
structure TickEnv where
  checksResp : HTTPResult PingdomChecks
  maintResp : HTTPResult PingdomMaintenanceSchedule
  updateResp : HTTPResult Unit
  maintResp2 : HTTPResult PingdomMaintenanceSchedule

/-- One tick of the `pollAPI` loop body: fetch checks (on error log and stop),
fetch the window (on error log and stop), reconcile; if stale, PUT the update
(logging any error); if up to date, log and refetch the window once, its
result and error discarded (only its gauge side effect kept).  Returns the
final gauge state and the tick's action trace. -/
def tick (today : Int) (env : TickEnv) (g : Gauges) : Gauges × List TickAction :=
  let r1 := getPingdomChecks env.checksResp g
  match r1.2 with
  | .error e => (r1.1, [TickAction.fetchChecks, TickAction.logError "Pingdom checks" e])
  | .ok c =>
    let u := getUptimeIds c
    let r2 := getPingdomMainenanceSchedule env.maintResp r1.1
    match r2.2 with
    | .error e =>
      (r2.1, [TickAction.fetchChecks, TickAction.fetchWindow, TickAction.logError "Pingdom maintenance" e])
    | .ok m =>
      let d := checkMaintenanceSchedule m u
      if d.1 = false then
        let pu := updatePingdomMaintenanceSchedule today d.2 env.updateResp
        match pu.2 with
        | .error e =>
          (r2.1, [TickAction.fetchChecks, TickAction.fetchWindow, TickAction.update pu.1,
                  TickAction.logError "Pingdom update maintenance schedule" e])
        | .ok _ =>
          (r2.1, [TickAction.fetchChecks, TickAction.fetchWindow, TickAction.update pu.1])
      else
        let r3 := getPingdomMainenanceSchedule env.maintResp2 r2.1
        (r3.1, [TickAction.fetchChecks, TickAction.fetchWindow, TickAction.logUpToDate,
                TickAction.fetchWindow])

/-- The `pollAPI` loop over a sequence of timer fires: each fire runs one tick
on the gauge state left by the previous one; returns the final gauges and the
per-tick action traces. -/
def pollAPI (today : Int) (envs : List TickEnv) (g : Gauges) :
    Gauges × List (List TickAction) :=
  match envs with
  | [] => (g, [])
  | e :: rest =>
    let p := tick today e g
    let q := pollAPI today rest p.1
    (q.1, p.2 :: q.2)

/-- A concrete window used for evaluation: uptime IDs `[5, 9]`, tms `[7]`,
description `"sla"`. -/
def sampleWindow : PingdomMaintenanceSchedule :=
  { Maintenance :=
    { ID := 1, Description := "sla", From := 0, To := 0, Duration := 0,
      Durationunit := "", Recurrencetype := "", Repeatevery := 0,
      Dayofweekinmonth := 0, Effectiveto := 0,
      Checks := { Uptime := [5, 9], Tms := [7] } } }

/-- A concrete window with uptime IDs `[1, 2]`. -/
def window12 : PingdomMaintenanceSchedule :=
  { Maintenance :=
    { ID := 1, Description := "sla", From := 0, To := 0, Duration := 0,
      Durationunit := "", Recurrencetype := "", Repeatevery := 0,
      Dayofweekinmonth := 0, Effectiveto := 0,
      Checks := { Uptime := [1, 2], Tms := [] } } }

/-- A concrete check record with the given ID and empty informational fields. -/
def mkCheck (id : Int) : Check :=
  { ID := id, Created := 0, Name := "", Hostname := "", Resolution := 0,
    TypeStr := "", Ipv6 := false, VerifyCertificate := false,
    Lasterrortime := 0, Lasttesttime := 0, Lastresponsetime := 0,
    Status := "", Maintenanceids := [] }

/-- A concrete checks response whose IDs are `[5, 9]`. -/
def sampleChecks : PingdomChecks :=
  { Checks := [mkCheck 5, mkCheck 9],
    Counts := { Total := 2, Limited := 0, Filtered := 0 } }

/-- A tick environment in which every HTTP call succeeds and the fetched
window is `sampleWindow`. -/
def envAllOk : TickEnv :=
  { checksResp := .response 200 (some sampleChecks),
    maintResp := .response 200 (some sampleWindow),
    updateResp := .response 200 (some ()),
    maintResp2 := .response 200 (some sampleWindow) }

/-- A tick environment whose first fetch fails at the transport level. -/
def envTransportErr : TickEnv :=
  { checksResp := .transportErr, maintResp := .transportErr,
    updateResp := .transportErr, maintResp2 := .transportErr }

/-- The all-zero gauge state. -/
def gauges0 : Gauges := { slaTotal := 0, slaMaintenance := 0 }

theorem zipAllEq : ∀ (a b : List Int), a.length = b.length →
    (((a.zip b).all fun p => p.1 == p.2) = true ↔ a = b)
  | [], [], _ => by simp
  | [], _ :: _, h => by simp at h
  | _ :: _, [], h => by simp at h
  | x :: xs, y :: ys, h => by
    have hlen : xs.length = ys.length := by simpa using h
    simp only [List.zip_cons_cons, List.all_cons, Bool.and_eq_true, beq_iff_eq,
      List.cons.injEq]
    exact and_congr Iff.rfl (zipAllEq xs ys hlen)

theorem compareSlice_eq_iff (a b : List Int) : compareSlice a b = true ↔ a = b := by
  unfold compareSlice
  by_cases h : a.length = b.length
  · rw [if_neg (by simp [h])]
    exact zipAllEq a b h
  · rw [if_pos h]
    simp only [Bool.false_eq_true, false_iff]
    intro hab
    exact h (by rw [hab])

theorem checkMaintenanceSchedule_snd_uptime (m : PingdomMaintenanceSchedule)
    (u : List Int) :
    (checkMaintenanceSchedule m u).2.Maintenance.Checks.Uptime = u := by
  cases hcs : compareSlice m.Maintenance.Checks.Uptime u with
  | false => simp [checkMaintenanceSchedule, hcs, setUptime]
  | true =>
    have hu := (compareSlice_eq_iff _ _).mp hcs
    unfold checkMaintenanceSchedule
    rw [hcs]
    simpa using hu

theorem checkMaintenanceSchedule_fst (m : PingdomMaintenanceSchedule)
    (u : List Int) :
    (checkMaintenanceSchedule m u).1 = compareSlice m.Maintenance.Checks.Uptime u := by
  cases hcs : compareSlice m.Maintenance.Checks.Uptime u with
  | false => simp [checkMaintenanceSchedule, hcs]
  | true => simp [checkMaintenanceSchedule, hcs]

theorem updatePingdomMaintenanceSchedule_fst (today : Int)
    (m : PingdomMaintenanceSchedule) (r : HTTPResult Unit) :
    (updatePingdomMaintenanceSchedule today m r).1 = updateSchedulePayload today m := by
  cases r with
  | transportErr => rfl
  | response code body =>
    cases hb : statusOK code with
    | false => cases body <;> simp [updatePingdomMaintenanceSchedule, hb]
    | true => cases body <;> simp [updatePingdomMaintenanceSchedule, hb]

theorem foldl_toString_eq_map (v : List Int) (acc : List String) :
    v.foldl (fun acc number => acc ++ [toString number]) acc = acc ++ v.map toString := by
  induction v generalizing acc with
  | nil => simp
  | cons x xs ih => simp [List.foldl_cons, ih]

/-- C1: `checkMaintenanceSchedule(W, D)` returns `upToDate = true` iff the
window's uptime ID list and the desired sequence `D` have equal length and
equal elements at every position; otherwise it returns `upToDate = false` and
a window whose uptime ID list equals `D` exactly. -/
theorem checkMaintenanceSchedule_upToDate_iff (m : PingdomMaintenanceSchedule)
    (u : List Int) :
    ((checkMaintenanceSchedule m u).1 = true ↔
      (m.Maintenance.Checks.Uptime.length = u.length ∧
        ∀ i h1 h2, m.Maintenance.Checks.Uptime.get ⟨i, h1⟩ = u.get ⟨i, h2⟩)) ∧
    ((checkMaintenanceSchedule m u).1 = false →
      (checkMaintenanceSchedule m u).2.Maintenance.Checks.Uptime = u) := by
  constructor
  · rw [checkMaintenanceSchedule_fst, compareSlice_eq_iff]
    exact List.ext_get_iff
  · intro _
    exact checkMaintenanceSchedule_snd_uptime m u

/-- Witness for C1 at `W = [1, 2]`, `D = [2, 1]`: not up to date, and the
returned window's uptime list is `[2, 1]`. -/
theorem checkMaintenanceSchedule_upToDate_iff_witness :
    (checkMaintenanceSchedule window12 [2, 1]).2.Maintenance.Checks.Uptime = [2, 1] :=
  (checkMaintenanceSchedule_upToDate_iff window12 [2, 1]).2 (by decide)

/-- C7: applying `checkMaintenanceSchedule` to its own output window, against
the same desired sequence, always reports up to date. -/
theorem checkMaintenanceSchedule_idempotent (m : PingdomMaintenanceSchedule)
    (u : List Int) :
    (checkMaintenanceSchedule (checkMaintenanceSchedule m u).2 u).1 = true := by
  rw [checkMaintenanceSchedule_fst, checkMaintenanceSchedule_snd_uptime]
  exact (compareSlice_eq_iff u u).mpr rfl

/-- C4: on every update the payload's `From` is 15:00:00 UTC of the current
day and `To` is 06:00:00 UTC of the following day, as Unix timestamps
(`today` counts days since the epoch), independent of the fetched window's
own `From`/`To`. -/
theorem updateSchedule_times_recomputed (today : Int)
    (m m2 : PingdomMaintenanceSchedule) (r : HTTPResult Unit) :
    (updatePingdomMaintenanceSchedule today m r).1.From = today * 86400 + 54000 ∧
    (updatePingdomMaintenanceSchedule today m r).1.To = (today + 1) * 86400 + 21600 ∧
    (updatePingdomMaintenanceSchedule today m r).1.From =
      (updatePingdomMaintenanceSchedule today m2 r).1.From ∧
    (updatePingdomMaintenanceSchedule today m r).1.To =
      (updatePingdomMaintenanceSchedule today m2 r).1.To := by
  refine ⟨?_, ?_, ?_, ?_⟩ <;>
    simp [updatePingdomMaintenanceSchedule_fst, updateSchedulePayload,
      timeDateUTCUnix]

/-- C5: the update payload echoes description, recurrencetype, repeatevery and
effectiveto unchanged from the fetched window, computes `tmsids` from the
window's untouched tms list, and its serialization carries exactly the
restricted eight-key subset — no `duration`, `durationunit` or
`dayofweekinmonth` key. -/
theorem updateSchedule_frame (today : Int) (m : PingdomMaintenanceSchedule)
    (r : HTTPResult Unit) :
    (updatePingdomMaintenanceSchedule today m r).1.Description = m.Maintenance.Description ∧
    (updatePingdomMaintenanceSchedule today m r).1.Recurrencetype = m.Maintenance.Recurrencetype ∧
    (updatePingdomMaintenanceSchedule today m r).1.Repeatevery = m.Maintenance.Repeatevery ∧
    (updatePingdomMaintenanceSchedule today m r).1.Effectiveto = m.Maintenance.Effectiveto ∧
    (updatePingdomMaintenanceSchedule today m r).1.Tmsids =
      intSliceToString m.Maintenance.Checks.Tms ∧
    (marshalMaintenanceScheduleUpdate (updatePingdomMaintenanceSchedule today m r).1).map
        Prod.fst =
      ["description", "from", "to", "recurrencetype", "repeatevery", "effectiveto",
       "uptimeids", "tmsids"] ∧
    "duration" ∉ (marshalMaintenanceScheduleUpdate
        (updatePingdomMaintenanceSchedule today m r).1).map Prod.fst ∧
    "durationunit" ∉ (marshalMaintenanceScheduleUpdate
        (updatePingdomMaintenanceSchedule today m r).1).map Prod.fst ∧
    "dayofweekinmonth" ∉ (marshalMaintenanceScheduleUpdate
        (updatePingdomMaintenanceSchedule today m r).1).map Prod.fst := by
  refine ⟨?_, ?_, ?_, ?_, ?_, ?_, ?_, ?_, ?_⟩ <;>
    simp [updatePingdomMaintenanceSchedule_fst, updateSchedulePayload,
      marshalMaintenanceScheduleUpdate]

/-- C6: `intSliceToString` joins the IDs with commas, in order and without
spaces; in particular the payload built from a window with uptime `[5, 9]`
and tms `[7]` has `uptimeids = "5,9"` and `tmsids = "7"`. -/
theorem intSliceToString_comma_join :
    (∀ v : List Int, intSliceToString v = String.intercalate "," (v.map toString)) ∧
    (updatePingdomMaintenanceSchedule 0 sampleWindow
      (HTTPResult.response 200 (some ()))).1.Uptimeids = "5,9" ∧
    (updatePingdomMaintenanceSchedule 0 sampleWindow
      (HTTPResult.response 200 (some ()))).1.Tmsids = "7" := by
  refine ⟨?_, ?_, ?_⟩
  · intro v
    simp [intSliceToString, foldl_toString_eq_map]
  · rfl
  · rfl

theorem contains_eq_true_iff (l : List Int) (x : Int) :
    MainV1.contains l x = true ↔ x ∈ l := by
  unfold MainV1.contains
  rw [List.any_eq_true]
  constructor
  · rintro ⟨y, hy, he⟩
    rw [beq_iff_eq] at he
    rw [← he]
    exact hy
  · intro hx
    exact ⟨x, hx, by simp⟩

theorem foldl_check_noop (u : List Int) : ∀ (st : Bool × List Int),
    (∀ x ∈ u, MainV1.contains st.2 x = true) →
    u.foldl
      (fun st check =>
        if ! (MainV1.contains st.2 check) then (false, st.2 ++ [check]) else st)
      st = st := by
  induction u with
  | nil => intro st _; rfl
  | cons x xs ih =>
    intro st hall
    have hx : MainV1.contains st.2 x = true := hall x (by simp)
    rw [List.foldl_cons]
    simp only [hx, Bool.not_true, Bool.false_eq_true, if_false]
    exact ih st fun y hy => hall y (List.mem_cons_of_mem _ hy)

/-- C10 counterexample: at the window with uptime `[1, 2]` and desired
sequence `[2, 1]`, the positional version reports drift while the
membership-and-append version of `src/src/main.go` reports up to date, so the
two implementations return different pairs. -/
theorem checkMaintenance_versions_differ :
    (checkMaintenanceSchedule window12 [2, 1]).1 = false ∧
    (MainV1.checkMaintenanceSchedule window12 [2, 1]).1 = true ∧
    checkMaintenanceSchedule window12 [2, 1] ≠
      MainV1.checkMaintenanceSchedule window12 [2, 1] := by
  refine ⟨by decide, by decide, by decide⟩

/-- C10 amended: the two implementations agree whenever the positional
version reports up to date — both then return `(true, m)` with the window
unchanged; on other inputs they can differ (see the counterexample). -/
theorem checkMaintenance_versions_agree_on_upToDate
    (m : PingdomMaintenanceSchedule) (u : List Int)
    (h : (checkMaintenanceSchedule m u).1 = true) :
    MainV1.checkMaintenanceSchedule m u = (true, m) ∧
    checkMaintenanceSchedule m u = (true, m) := by
  have hcs : compareSlice m.Maintenance.Checks.Uptime u = true := by
    rw [← checkMaintenanceSchedule_fst]; exact h
  have heq : m.Maintenance.Checks.Uptime = u := (compareSlice_eq_iff _ _).mp hcs
  have hall : ∀ x ∈ u, MainV1.contains m.Maintenance.Checks.Uptime x = true := by
    intro x hx
    rw [contains_eq_true_iff, heq]
    exact hx
  constructor
  · simp only [MainV1.checkMaintenanceSchedule]
    rw [foldl_check_noop u (true, m.Maintenance.Checks.Uptime) hall]
    rfl
  · unfold checkMaintenanceSchedule
    rw [hcs]
    simp

/-- Witness for the amended C10 at `sampleWindow` and `[5, 9]`. -/
theorem checkMaintenance_versions_agree_witness :
    MainV1.checkMaintenanceSchedule sampleWindow [5, 9] = (true, sampleWindow) :=
  (checkMaintenance_versions_agree_on_upToDate sampleWindow [5, 9] (by decide)).1

/-- C8: startup is fatal exactly on empty `API_KEY` or zero `MAINTENANCE_ID`
(an unparsable `MAINTENANCE_ID` reads as 0 through `getenvInt`); a zero,
absent or unparsable `POLL_INTERVAL` defaults to 300 and an empty
`METRICS_PORT` defaults to `"9600"`. -/
theorem newEnv_getenvInt_contract (k s mp : String) (mid p : Int) :
    (∀ mid2 p2 mp2, newEnv "" mid2 p2 mp2 = none) ∧
    (∀ p2 mp2, newEnv k 0 p2 mp2 = none) ∧
    (atoi s = none → getenvInt s = 0) ∧
    (k ≠ "" → mid ≠ 0 → newEnv k mid 0 mp =
      some { apiKey := k, maintenanceID := mid, pollInterval := 300,
             metricsPort := if mp = "" then "9600" else mp }) ∧
    (k ≠ "" → mid ≠ 0 → newEnv k mid p "" =
      some { apiKey := k, maintenanceID := mid,
             pollInterval := if p = 0 then 300 else p, metricsPort := "9600" }) := by
  refine ⟨?_, ?_, ?_, ?_, ?_⟩
  · intro mid2 p2 mp2
    rfl
  · intro p2 mp2
    by_cases hk : k = "" <;> simp [newEnv, hk]
  · intro hs
    simp [getenvInt, hs]
  · intro hk hm
    simp [newEnv, hk, hm]
  · intro hk hm
    simp [newEnv, hk, hm]

/-- Witness for C8: a valid key and ID with absent `POLL_INTERVAL` and
`METRICS_PORT` yield the 300-second and `"9600"` defaults. -/
theorem newEnv_getenvInt_contract_witness :
    newEnv "key" 42 0 "" =
      some { apiKey := "key", maintenanceID := 42, pollInterval := 300,
             metricsPort := "9600" } := by
  have h := (newEnv_getenvInt_contract "key" "x" "" 42 0).2.2.2.1
    (by decide) (by decide)
  simpa using h

theorem tick_checksErr (today : Int) (env : TickEnv) (g : Gauges)
    (e : FetchError) (h : (getPingdomChecks env.checksResp g).2 = Except.error e) :
    tick today env g = ((getPingdomChecks env.checksResp g).1,
      [TickAction.fetchChecks, TickAction.logError "Pingdom checks" e]) := by
  simp only [tick]
  rw [h]

theorem tick_maintErr (today : Int) (env : TickEnv) (g : Gauges)
    (c : PingdomChecks) (e : FetchError)
    (h1 : (getPingdomChecks env.checksResp g).2 = Except.ok c)
    (h2 : (getPingdomMainenanceSchedule env.maintResp
      (getPingdomChecks env.checksResp g).1).2 = Except.error e) :
    tick today env g = ((getPingdomMainenanceSchedule env.maintResp
        (getPingdomChecks env.checksResp g).1).1,
      [TickAction.fetchChecks, TickAction.fetchWindow,
       TickAction.logError "Pingdom maintenance" e]) := by
  simp only [tick]
  rw [h1, h2]

theorem tick_updateErr (today : Int) (env : TickEnv) (g : Gauges)
    (c : PingdomChecks) (m : PingdomMaintenanceSchedule) (e : FetchError)
    (h1 : (getPingdomChecks env.checksResp g).2 = Except.ok c)
    (h2 : (getPingdomMainenanceSchedule env.maintResp
      (getPingdomChecks env.checksResp g).1).2 = Except.ok m)
    (h3 : (checkMaintenanceSchedule m (getUptimeIds c)).1 = false)
    (h4 : (updatePingdomMaintenanceSchedule today
      (checkMaintenanceSchedule m (getUptimeIds c)).2 env.updateResp).2 =
      Except.error e) :
    tick today env g = ((getPingdomMainenanceSchedule env.maintResp
        (getPingdomChecks env.checksResp g).1).1,
      [TickAction.fetchChecks, TickAction.fetchWindow,
       TickAction.update (updateSchedulePayload today
         (checkMaintenanceSchedule m (getUptimeIds c)).2),
       TickAction.logError "Pingdom update maintenance schedule" e]) := by
  simp only [tick, h1, h2, h3, h4, updatePingdomMaintenanceSchedule_fst, if_true]

theorem tick_upToDate_eq (today : Int) (env : TickEnv) (g : Gauges)
    (c : PingdomChecks) (m : PingdomMaintenanceSchedule)
    (h1 : (getPingdomChecks env.checksResp g).2 = Except.ok c)
    (h2 : (getPingdomMainenanceSchedule env.maintResp
      (getPingdomChecks env.checksResp g).1).2 = Except.ok m)
    (h3 : (checkMaintenanceSchedule m (getUptimeIds c)).1 = true) :
    tick today env g = ((getPingdomMainenanceSchedule env.maintResp2
        (getPingdomMainenanceSchedule env.maintResp
          (getPingdomChecks env.checksResp g).1).1).1,
      [TickAction.fetchChecks, TickAction.fetchWindow, TickAction.logUpToDate,
       TickAction.fetchWindow]) := by
  simp only [tick, h1, h2, h3, Bool.true_eq_false, if_false]

theorem pollAPI_length (today : Int) (envs : List TickEnv) (g : Gauges) :
    (pollAPI today envs g).2.length = envs.length := by
  induction envs generalizing g with
  | nil => rfl
  | cons e rest ih => simp [pollAPI, ih]

/-- C2 counterexample: a non-2xx status error (code 500) from
`getPingdomChecks` returns the error with `slaTotal` left at its previous
value 7, not set to 0. -/
theorem fetch_gauge_not_zeroed_on_status :
    (getPingdomChecks (HTTPResult.response 500 none)
      { slaTotal := 7, slaMaintenance := 7 }).2 =
      Except.error (FetchError.status 500) ∧
    (getPingdomChecks (HTTPResult.response 500 none)
      { slaTotal := 7, slaMaintenance := 7 }).1.slaTotal = 7 :=
  ⟨rfl, rfl⟩

/-- C2 amended: gauge zeroing on fetch failure is partial.  A decode error
zeroes the involved gauge in both fetches and a transport error zeroes
`slaMaintenance` in the window fetch, but a transport error in the checks
fetch and a non-2xx status error in either fetch leave the gauges unchanged
— in particular a status error does not set the gauge to 0. -/
theorem fetch_gauge_zeroing (rc : HTTPResult PingdomChecks)
    (rm : HTTPResult PingdomMaintenanceSchedule) (g : Gauges) :
    ((getPingdomChecks rc g).2 = Except.error FetchError.transport →
      (getPingdomChecks rc g).1 = g) ∧
    (∀ code, (getPingdomChecks rc g).2 = Except.error (FetchError.status code) →
      (getPingdomChecks rc g).1 = g) ∧
    ((getPingdomChecks rc g).2 = Except.error FetchError.decode →
      (getPingdomChecks rc g).1.slaTotal = 0) ∧
    ((getPingdomMainenanceSchedule rm g).2 = Except.error FetchError.transport →
      (getPingdomMainenanceSchedule rm g).1.slaMaintenance = 0) ∧
    (∀ code, (getPingdomMainenanceSchedule rm g).2 =
        Except.error (FetchError.status code) →
      (getPingdomMainenanceSchedule rm g).1 = g) ∧
    ((getPingdomMainenanceSchedule rm g).2 = Except.error FetchError.decode →
      (getPingdomMainenanceSchedule rm g).1.slaMaintenance = 0) := by
  refine ⟨?_, ?_, ?_, ?_, ?_, ?_⟩
  · cases rc with
    | transportErr => intro _; rfl
    | response code body =>
      cases hb : statusOK code with
      | false => cases body <;> simp [getPingdomChecks, hb]
      | true => cases body <;> simp [getPingdomChecks, hb]
  · intro code
    cases rc with
    | transportErr => simp [getPingdomChecks]
    | response code2 body =>
      cases hb : statusOK code2 with
      | false => cases body <;> simp [getPingdomChecks, hb]
      | true => cases body <;> simp [getPingdomChecks, hb]
  · cases rc with
    | transportErr => simp [getPingdomChecks]
    | response code body =>
      cases hb : statusOK code with
      | false => cases body <;> simp [getPingdomChecks, hb]
      | true => cases body <;> simp [getPingdomChecks, hb]
  · cases rm with
    | transportErr => intro _; rfl
    | response code body =>
      cases hb : statusOK code with
      | false => cases body <;> simp [getPingdomMainenanceSchedule, hb]
      | true => cases body <;> simp [getPingdomMainenanceSchedule, hb]
  · intro code
    cases rm with
    | transportErr => simp [getPingdomMainenanceSchedule]
    | response code2 body =>
      cases hb : statusOK code2 with
      | false => cases body <;> simp [getPingdomMainenanceSchedule, hb]
      | true => cases body <;> simp [getPingdomMainenanceSchedule, hb]
  · cases rm with
    | transportErr => simp [getPingdomMainenanceSchedule]
    | response code body =>
      cases hb : statusOK code with
      | false => cases body <;> simp [getPingdomMainenanceSchedule, hb]
      | true => cases body <;> simp [getPingdomMainenanceSchedule, hb]

/-- Witness for the amended C2: a decode error in the checks fetch zeroes
`slaTotal` from a previous value of 7. -/
theorem fetch_gauge_zeroing_witness :
    (getPingdomChecks (HTTPResult.response 200 none)
      { slaTotal := 7, slaMaintenance := 7 }).1.slaTotal = 0 :=
  (fetch_gauge_zeroing (HTTPResult.response 200 none) HTTPResult.transportErr
    { slaTotal := 7, slaMaintenance := 7 }).2.2.1 rfl

/-- C3: the poll loop completes exactly one tick per timer fire whatever the
HTTP outcomes (no error terminates the loop), and an error from the checks
fetch, the window fetch or the update is logged and ends that tick's trace —
the tick is abandoned and nothing further happens until the next fire. -/
theorem pollAPI_error_isolation (today : Int) (envs : List TickEnv) (g : Gauges) :
    (pollAPI today envs g).2.length = envs.length ∧
    (∀ env g1 e, (getPingdomChecks env.checksResp g1).2 = Except.error e →
      (tick today env g1).2 =
        [TickAction.fetchChecks, TickAction.logError "Pingdom checks" e]) ∧
    (∀ env g1 c e, (getPingdomChecks env.checksResp g1).2 = Except.ok c →
      (getPingdomMainenanceSchedule env.maintResp
        (getPingdomChecks env.checksResp g1).1).2 = Except.error e →
      (tick today env g1).2 = [TickAction.fetchChecks, TickAction.fetchWindow,
        TickAction.logError "Pingdom maintenance" e]) ∧
    (∀ env g1 c m e, (getPingdomChecks env.checksResp g1).2 = Except.ok c →
      (getPingdomMainenanceSchedule env.maintResp
        (getPingdomChecks env.checksResp g1).1).2 = Except.ok m →
      (checkMaintenanceSchedule m (getUptimeIds c)).1 = false →
      (updatePingdomMaintenanceSchedule today
        (checkMaintenanceSchedule m (getUptimeIds c)).2 env.updateResp).2 =
        Except.error e →
      (tick today env g1).2 = [TickAction.fetchChecks, TickAction.fetchWindow,
        TickAction.update (updateSchedulePayload today
          (checkMaintenanceSchedule m (getUptimeIds c)).2),
        TickAction.logError "Pingdom update maintenance schedule" e]) := by
  refine ⟨pollAPI_length today envs g, ?_, ?_, ?_⟩
  · intro env g1 e h
    rw [tick_checksErr today env g1 e h]
  · intro env g1 c e h1 h2
    rw [tick_maintErr today env g1 c e h1 h2]
  · intro env g1 c m e h1 h2 h3 h4
    rw [tick_updateErr today env g1 c m e h1 h2 h3 h4]

/-- Witness for C3: a transport error on the checks fetch yields the
two-action abandoned-tick trace. -/
theorem pollAPI_error_isolation_witness :
    (tick 0 envTransportErr gauges0).2 =
      [TickAction.fetchChecks,
       TickAction.logError "Pingdom checks" FetchError.transport] :=
  (pollAPI_error_isolation 0 [] gauges0).2.1 envTransportErr gauges0
    FetchError.transport rfl

/-- C9: when the reconciler reports up to date, the tick issues no update
call; its trace is fetch, fetch, the up-to-date log, and exactly one extra
window fetch whose decoded result and error are discarded (the trace does not
depend on that refetch's outcome) — the refetch is kept only for its gauge
side effect, which is the tick's final gauge state. -/
theorem tick_upToDate_no_update (today : Int) (env : TickEnv) (g : Gauges)
    (c : PingdomChecks) (m : PingdomMaintenanceSchedule)
    (hc : (getPingdomChecks env.checksResp g).2 = Except.ok c)
    (hm : (getPingdomMainenanceSchedule env.maintResp
      (getPingdomChecks env.checksResp g).1).2 = Except.ok m)
    (hu : (checkMaintenanceSchedule m (getUptimeIds c)).1 = true) :
    (tick today env g).2 = [TickAction.fetchChecks, TickAction.fetchWindow,
      TickAction.logUpToDate, TickAction.fetchWindow] ∧
    (∀ p, TickAction.update p ∉ (tick today env g).2) ∧
    (∀ r2, (tick today { env with maintResp2 := r2 } g).2 = (tick today env g).2) ∧
    (tick today env g).1 = (getPingdomMainenanceSchedule env.maintResp2
      (getPingdomMainenanceSchedule env.maintResp
        (getPingdomChecks env.checksResp g).1).1).1 := by
  have ht := tick_upToDate_eq today env g c m hc hm hu
  refine ⟨?_, ?_, ?_, ?_⟩
  · rw [ht]
  · intro p
    rw [ht]
    simp
  · intro r2
    have ht2 := tick_upToDate_eq today { env with maintResp2 := r2 } g c m hc hm hu
    rw [ht2, ht]
  · rw [ht]

/-- Witness for C9: with all calls succeeding and the window already matching
the desired IDs `[5, 9]`, the tick's trace contains no update action. -/
theorem tick_upToDate_no_update_witness :
    (tick 0 envAllOk gauges0).2 = [TickAction.fetchChecks, TickAction.fetchWindow,
      TickAction.logUpToDate, TickAction.fetchWindow] :=
  (tick_upToDate_no_update 0 envAllOk gauges0 sampleChecks sampleWindow
    rfl rfl rfl).1
